import Mathlib

/-!
Shallow embedding of the `vectorize_iris` Python client library
(`src/python-api/vectorize_iris/`): the data models (`models.py`), the
blocking driver (`client.py`) and the suspendable driver
(`async_client.py`).  HTTP traffic is modelled by an environment that
supplies the responses in order, and the drivers emit an explicit event
trace (requests issued, sleeps, file reads) alongside their outcome.
Wall-clock readings (`time.time()` / `loop.time()`) are modelled as
rationals supplied by the environment, one per poll iteration plus the
recorded start time.
-/

/-! ## JSON values and Python `json.dumps`

Python dict/JSON payloads are modelled as an inductive `Json` type whose
objects are ordered key/value lists (Python dicts preserve insertion
order, and `json.dumps` serialises in that order).  `Json.dumps` follows
CPython's defaults: separators `", "` and `": "`, standard escapes for
quote, backslash and control characters.  (Non-ASCII pass-through is the
one simplification over `ensure_ascii=True`; no claim depends on it.) -/

inductive Json where
  | null : Json
  | bool (b : Bool) : Json
  | num (n : Int) : Json
  | str (s : String) : Json
  | arr (xs : List Json) : Json
  | obj (fields : List (String × Json)) : Json
deriving Repr

def jsonHexDigit (n : Nat) : Char :=
  if n < 10 then Char.ofNat (48 + n) else Char.ofNat (87 + n % 16)

def jsonEscapeChar (c : Char) : String :=
  if c = '"' then "\\\""
  else if c = '\\' then "\\\\"
  else if c = '\n' then "\\n"
  else if c = '\t' then "\\t"
  else if c = '\r' then "\\r"
  else if c.toNat = 8 then "\\b"
  else if c.toNat = 12 then "\\f"
  else if c.toNat < 32 then
    "\\u00" ++ String.mk [jsonHexDigit (c.toNat / 16), jsonHexDigit (c.toNat % 16)]
  else String.mk [c]

def jsonEscape (s : String) : String :=
  String.join (s.toList.map jsonEscapeChar)

mutual

def Json.dumps : Json → String
  | .null => "null"
  | .bool true => "true"
  | .bool false => "false"
  | .num n => toString n
  | .str s => "\"" ++ jsonEscape s ++ "\""
  | .arr xs => "[" ++ String.intercalate ", " (Json.dumpsArr xs) ++ "]"
  | .obj fs => "\x7b" ++ String.intercalate ", " (Json.dumpsObj fs) ++ "\x7d"

def Json.dumpsArr : List Json → List String
  | [] => []
  | x :: xs => Json.dumps x :: Json.dumpsArr xs

def Json.dumpsObj : List (String × Json) → List String
  | [] => []
  | (k, v) :: fs => ("\"" ++ jsonEscape k ++ "\": " ++ Json.dumps v) :: Json.dumpsObj fs

end

/-- The keys of a JSON object (empty for non-objects). -/
def Json.objKeys : Json → List String
  | .obj fs => fs.map (fun kv => kv.1)
  | _ => []

/-- Helper for pydantic `model_dump(..., exclude_none=True)`: a field is
emitted only when its value is present. -/
def optField (k : String) (v : Option Json) : List (String × Json) :=
  match v with
  | none => []
  | some j => [(k, j)]

/-! ## `models.py` -/

/-- `StartFileUploadRequest` (models.py lines 12-17). -/
structure StartFileUploadRequest where
  name : String
  content_type : String
deriving Repr, DecidableEq

/-- `StartFileUploadRequest.model_dump(by_alias=True)`: both fields are
required, dumped in declaration order with their aliases. -/
def StartFileUploadRequest.model_dump (r : StartFileUploadRequest) : Json :=
  .obj [("name", .str r.name), ("contentType", .str r.content_type)]

/-- A value accepted by the `schema` field of
`MetadataExtractionStrategySchema`: `Union[str, Dict[str, Any]]`. -/
inductive SchemaVal where
  | str (s : String) : SchemaVal
  | dict (m : List (String × Json)) : SchemaVal
deriving Repr

/-- `MetadataExtractionStrategySchema` (models.py lines 20-33), after
validation: `schema_` is always a string. -/
structure MetadataExtractionStrategySchema where
  id : String
  schema_ : String
deriving Repr, DecidableEq

/-- The `convert_schema_to_string` field validator (models.py lines
27-33): a dict is serialised with `json.dumps`, a string passes through. -/
def convert_schema_to_string : SchemaVal → String
  | .dict m => Json.dumps (.obj m)
  | .str v => v

/-- Constructing `MetadataExtractionStrategySchema(id=..., schema=...)`:
the `mode='before'` validator runs on the raw `schema` value. -/
def mkMetadataExtractionStrategySchema (id : String) (schema : SchemaVal) :
    MetadataExtractionStrategySchema :=
  ⟨id, convert_schema_to_string schema⟩

def MetadataExtractionStrategySchema.dump (s : MetadataExtractionStrategySchema) : Json :=
  .obj [("id", .str s.id), ("schema", .str s.schema_)]

/-- `MetadataExtractionStrategy` (models.py lines 36-41). -/
structure MetadataExtractionStrategy where
  schemas : Option (List MetadataExtractionStrategySchema)
  infer_schema : Option Bool
deriving Repr, DecidableEq

/-- `model_dump(by_alias=True, exclude_none=True)` for the nested
strategy (pydantic applies `exclude_none` recursively). -/
def MetadataExtractionStrategy.dump (m : MetadataExtractionStrategy) : Json :=
  .obj (optField "schemas" (m.schemas.map (fun l => Json.arr (l.map MetadataExtractionStrategySchema.dump)))
    ++ optField "inferSchema" (m.infer_schema.map Json.bool))

/-- `StartExtractionRequest` (models.py lines 44-56).  The pydantic field
default for `chunk_size` is 256, but `to_extraction_request` always
passes the field explicitly, so the default never fires there. -/
structure StartExtractionRequest where
  file_id : String
  type : Option String
  chunk_size : Option Int
  metadata : Option MetadataExtractionStrategy
  parsing_instructions : Option String
deriving Repr, DecidableEq

/-- `StartExtractionRequest.model_dump(by_alias=True, exclude_none=True)`:
fields in declaration order, aliased, `None` fields omitted. -/
def StartExtractionRequest.model_dump (r : StartExtractionRequest) : Json :=
  .obj ([("fileId", Json.str r.file_id)]
    ++ optField "type" (r.type.map Json.str)
    ++ optField "chunkSize" (r.chunk_size.map Json.num)
    ++ optField "metadata" (r.metadata.map MetadataExtractionStrategy.dump)
    ++ optField "parsingInstructions" (r.parsing_instructions.map Json.str))

/-- `StartFileUploadResponse` (models.py lines 61-66). -/
structure StartFileUploadResponse where
  file_id : String
  upload_url : String
deriving Repr, DecidableEq

/-- `StartExtractionResponse` (models.py lines 69-74). -/
structure StartExtractionResponse where
  message : String
  extraction_id : String
deriving Repr, DecidableEq

/-- `UsageInfo` (models.py lines 77-81). -/
structure UsageInfo where
  iris_pages : Int
deriving Repr, DecidableEq

/-- `ExtractionResultData` (models.py lines 84-104). -/
structure ExtractionResultData where
  success : Bool
  chunks : Option (List String)
  text : Option String
  metadata : Option String
  metadata_schema : Option String
  chunks_metadata : Option (List (Option String))
  chunks_schema : Option (List (Option String))
  usage : Option UsageInfo
  error : Option String
deriving Repr, DecidableEq

/-- `ExtractionResult` (models.py lines 107-112). -/
structure ExtractionResult where
  ready : Bool
  data : Option ExtractionResultData
deriving Repr, DecidableEq

/-- A raw element of `ExtractionOptions.metadata_schemas`:
`Union[MetadataExtractionStrategySchema, Dict[str, Any]]` — either an
already-constructed model object or a dict with `id` and `schema` keys. -/
inductive SchemaInput where
  | model (s : MetadataExtractionStrategySchema) : SchemaInput
  | dict (id : String) (schema : SchemaVal) : SchemaInput
deriving Repr

/-- `ExtractionOptions` (models.py lines 117-146), after validation:
`metadata_schemas` holds only structured schema objects. -/
structure ExtractionOptions where
  type : Option String
  chunk_size : Option Int
  metadata_schemas : Option (List MetadataExtractionStrategySchema)
  infer_metadata_schema : Option Bool
  parsing_instructions : Option String
deriving Repr, DecidableEq

/-- The `convert_metadata_schemas` field validator (models.py lines
126-138): each dict element is turned into a
`MetadataExtractionStrategySchema` (running its own `schema` validator),
model objects pass through. -/
def convert_metadata_schemas : Option (List SchemaInput) →
    Option (List MetadataExtractionStrategySchema)
  | none => none
  | some v => some (v.map (fun item =>
      match item with
      | .dict i s => mkMetadataExtractionStrategySchema i s
      | .model s => s))

/-- Constructing `ExtractionOptions(...)` with raw inputs: defaults are
`type="iris"`, `chunk_size=None`, `metadata_schemas=None`,
`infer_metadata_schema=True`, `parsing_instructions=None`; the
`mode='before'` validator normalises `metadata_schemas`. -/
def mkExtractionOptions (type : Option String) (chunk_size : Option Int)
    (metadata_schemas : Option (List SchemaInput))
    (infer_metadata_schema : Option Bool)
    (parsing_instructions : Option String) : ExtractionOptions :=
  ⟨type, chunk_size, convert_metadata_schemas metadata_schemas,
   infer_metadata_schema, parsing_instructions⟩

/-- `ExtractionOptions()` with every argument left to its default. -/
def ExtractionOptions.default : ExtractionOptions :=
  mkExtractionOptions (some "iris") none none (some true) none

/-- `ExtractionOptions.to_extraction_request` (models.py lines 148-163). -/
def ExtractionOptions.to_extraction_request (self : ExtractionOptions)
    (file_id : String) : StartExtractionRequest :=
  let metadata : Option MetadataExtractionStrategy :=
    if self.metadata_schemas ≠ none ∨ self.infer_metadata_schema ≠ none then
      some ⟨self.metadata_schemas, self.infer_metadata_schema⟩
    else none
  ⟨file_id, self.type, self.chunk_size, metadata, self.parsing_instructions⟩

/-! ## Drivers: `client.py` and `async_client.py`

Each HTTP exchange is modelled by an `HttpResp` holding the status code,
the response body text, and the decoded JSON payload (used only on the
paths where the Python code parses it).  A `DriverEnv` supplies, in
order, the responses a run of `_extract_from_bytes` consumes, the start
timestamp, and one wall-clock reading per poll iteration.  The drivers
return the emitted event trace plus an `Outcome`. -/

/-- An HTTP response as observed by the client: status, body text, and
decoded payload of type `α`. -/
structure HttpResp (α : Type) where
  status : Nat
  text : String
  payload : α
deriving Repr

/-- Observable events emitted by a driver run. -/
inductive Event where
  | postReq (url : String) (headers : List (String × String)) (body : Json) : Event
  | putReq (url : String) (headers : List (String × String)) (data : List Nat) : Event
  | getReq (url : String) (headers : List (String × String)) : Event
  | sleepFor (seconds : Int) : Event
  | readFile (path : String) : Event
deriving Repr

def Event.isGet : Event → Bool
  | .getReq _ _ => true
  | _ => false

def Event.isPut : Event → Bool
  | .putReq _ _ _ => true
  | _ => false

def Event.isSleep : Event → Bool
  | .sleepFor _ => true
  | _ => false

/-- The exceptions a driver run can raise: `VectorizeIrisError(msg)`
(from `exceptions.py`) and the built-in `FileNotFoundError(msg)`. -/
inductive PyErr where
  | vectorizeIrisError (msg : String) : PyErr
  | fileNotFoundError (msg : String) : PyErr
deriving Repr, DecidableEq

/-- How a driver run ends.  `envExhausted` is a modelling artifact: the
environment supplied fewer status snapshots than the poll loop consumed
(the real loop would simply keep polling). -/
inductive Outcome where
  | ok (d : ExtractionResultData) : Outcome
  | err (e : PyErr) : Outcome
  | envExhausted : Outcome
deriving Repr, DecidableEq

/-- The response/clock environment one `_extract_from_bytes` run reads:
the three leading responses, the recorded start time, and per-iteration
(wall-clock reading, status response) pairs. -/
structure DriverEnv where
  uploadResp : HttpResp StartFileUploadResponse
  putResp : HttpResp Unit
  extractionResp : HttpResp StartExtractionResponse
  startTime : ℚ
  polls : List (ℚ × HttpResp ExtractionResult)

/-- Python `x or "default"` for an optional string `x`: `None` and the
empty string are falsy (client.py line 119). -/
def pyStrOr (a : Option String) (b : String) : String :=
  match a with
  | some s => if s = "" then b else s
  | none => b

/-- The JSON request headers built at the top of `_extract_from_bytes`
(client.py lines 36-39). -/
def jsonHeaders (api_token : String) : List (String × String) :=
  [("Authorization", "Bearer " ++ api_token),
   ("Content-Type", "application/json")]

/-- `if options is None: options = ExtractionOptions()` (client.py lines
44-45 / async_client.py lines 44-45). -/
def optsOrDefault : Option ExtractionOptions → ExtractionOptions
  | none => ExtractionOptions.default
  | some o => o

/-- The polling loop of `_extract_from_bytes` (client.py lines 98-125).
One list element per iteration: the iteration's `time.time()` reading
paired with the response a status request would receive. -/
def pollLoop (base_url : String) (headers : List (String × String))
    (extraction_id : String) (poll_interval timeout : Int) (start_time : ℚ) :
    List (ℚ × HttpResp ExtractionResult) → List Event × Outcome
  | [] => ([], .envExhausted)
  | (now, status_response) :: rest =>
    if now - start_time > (timeout : ℚ) then
      ([], .err (.vectorizeIrisError
        ("Extraction timed out after " ++ toString timeout ++ " seconds")))
    else
      let ev := Event.getReq (base_url ++ "/extraction/" ++ extraction_id) headers
      if status_response.status ≠ 200 then
        ([ev], .err (.vectorizeIrisError
          ("Failed to check status: " ++ toString status_response.status
            ++ " - " ++ status_response.text)))
      else
        let result := status_response.payload
        if result.ready then
          match result.data with
          | none => ([ev], .err (.vectorizeIrisError
              "Extraction completed but no data was returned"))
          | some data =>
            if data.success = false then
              let error_msg := pyStrOr data.error "Unknown error"
              ([ev], .err (.vectorizeIrisError ("Extraction failed: " ++ error_msg)))
            else
              ([ev], .ok data)
        else
          let next := pollLoop base_url headers extraction_id poll_interval timeout
            start_time rest
          (ev :: Event.sleepFor poll_interval :: next.1, next.2)

/-- `_extract_from_bytes` (client.py lines 23-125), the blocking driver. -/
def extractFromBytes (file_content : List Nat) (file_name : String)
    (api_token org_id : String) (poll_interval timeout : Int)
    (options : Option ExtractionOptions) (env : DriverEnv) : List Event × Outcome :=
  let base_url := "https://api.vectorize.io/v1/org/" ++ org_id
  let headers := jsonHeaders api_token
  let file_size := file_content.length
  let options := optsOrDefault options
  let upload_request : StartFileUploadRequest := ⟨file_name, "application/octet-stream"⟩
  let ev1 := Event.postReq (base_url ++ "/files") headers upload_request.model_dump
  let upload_response := env.uploadResp
  if upload_response.status ≠ 200 then
    ([ev1], .err (.vectorizeIrisError
      ("Failed to start upload: " ++ toString upload_response.status
        ++ " - " ++ upload_response.text)))
  else
    let upload_data := upload_response.payload
    let upload_headers := [("Content-Type", "application/octet-stream"),
      ("Content-Length", toString file_size)]
    let ev2 := Event.putReq upload_data.upload_url upload_headers file_content
    let put_response := env.putResp
    if put_response.status ∉ [200, 201, 204] then
      ([ev1, ev2], .err (.vectorizeIrisError
        ("Failed to upload file: " ++ toString put_response.status
          ++ " - " ++ put_response.text)))
    else
      let extraction_request := options.to_extraction_request upload_data.file_id
      let ev3 := Event.postReq (base_url ++ "/extraction") headers
        extraction_request.model_dump
      let extraction_response := env.extractionResp
      if extraction_response.status ≠ 200 then
        ([ev1, ev2, ev3], .err (.vectorizeIrisError
          ("Failed to start extraction: " ++ toString extraction_response.status
            ++ " - " ++ extraction_response.text)))
      else
        let extraction_data := extraction_response.payload
        let start_time := env.startTime
        let tail := pollLoop base_url headers extraction_data.extraction_id
          poll_interval timeout start_time env.polls
        (ev1 :: ev2 :: ev3 :: tail.1, tail.2)

/-- The polling loop of `_extract_from_bytes_async` (async_client.py
lines 100-130): same protocol, with `asyncio.get_event_loop().time()` as
the clock and `asyncio.sleep` as the suspension primitive. -/
def pollLoopAsync (base_url : String) (headers : List (String × String))
    (extraction_id : String) (poll_interval timeout : Int) (start_time : ℚ) :
    List (ℚ × HttpResp ExtractionResult) → List Event × Outcome
  | [] => ([], .envExhausted)
  | (now, status_response) :: rest =>
    if now - start_time > (timeout : ℚ) then
      ([], .err (.vectorizeIrisError
        ("Extraction timed out after " ++ toString timeout ++ " seconds")))
    else
      let ev := Event.getReq (base_url ++ "/extraction/" ++ extraction_id) headers
      if status_response.status ≠ 200 then
        ([ev], .err (.vectorizeIrisError
          ("Failed to check status: " ++ toString status_response.status
            ++ " - " ++ status_response.text)))
      else
        let result := status_response.payload
        if result.ready then
          match result.data with
          | none => ([ev], .err (.vectorizeIrisError
              "Extraction completed but no data was returned"))
          | some data =>
            if data.success = false then
              let error_msg := pyStrOr data.error "Unknown error"
              ([ev], .err (.vectorizeIrisError ("Extraction failed: " ++ error_msg)))
            else
              ([ev], .ok data)
        else
          let next := pollLoopAsync base_url headers extraction_id poll_interval timeout
            start_time rest
          (ev :: Event.sleepFor poll_interval :: next.1, next.2)

/-- `_extract_from_bytes_async` (async_client.py lines 23-130), the
suspendable driver: same steps issued through an `aiohttp` session. -/
def extractFromBytesAsync (file_content : List Nat) (file_name : String)
    (api_token org_id : String) (poll_interval timeout : Int)
    (options : Option ExtractionOptions) (env : DriverEnv) : List Event × Outcome :=
  let base_url := "https://api.vectorize.io/v1/org/" ++ org_id
  let headers := jsonHeaders api_token
  let file_size := file_content.length
  let options := optsOrDefault options
  let upload_request : StartFileUploadRequest := ⟨file_name, "application/octet-stream"⟩
  let ev1 := Event.postReq (base_url ++ "/files") headers upload_request.model_dump
  let upload_response := env.uploadResp
  if upload_response.status ≠ 200 then
    ([ev1], .err (.vectorizeIrisError
      ("Failed to start upload: " ++ toString upload_response.status
        ++ " - " ++ upload_response.text)))
  else
    let upload_data := upload_response.payload
    let upload_headers := [("Content-Type", "application/octet-stream"),
      ("Content-Length", toString file_size)]
    let ev2 := Event.putReq upload_data.upload_url upload_headers file_content
    let put_response := env.putResp
    if put_response.status ∉ [200, 201, 204] then
      ([ev1, ev2], .err (.vectorizeIrisError
        ("Failed to upload file: " ++ toString put_response.status
          ++ " - " ++ put_response.text)))
    else
      let extraction_request := options.to_extraction_request upload_data.file_id
      let ev3 := Event.postReq (base_url ++ "/extraction") headers
        extraction_request.model_dump
      let extraction_response := env.extractionResp
      if extraction_response.status ≠ 200 then
        ([ev1, ev2, ev3], .err (.vectorizeIrisError
          ("Failed to start extraction: " ++ toString extraction_response.status
            ++ " - " ++ extraction_response.text)))
      else
        let extraction_data := extraction_response.payload
        let start_time := env.startTime
        let tail := pollLoopAsync base_url headers extraction_data.extraction_id
          poll_interval timeout start_time env.polls
        (ev1 :: ev2 :: ev3 :: tail.1, tail.2)

/-! ## Public entry points

Explicit credential arguments are `Option String` (`None` = not passed);
the process-wide configuration (`VECTORIZE_API_TOKEN` /
`VECTORIZE_ORG_ID` environment variables) is a further pair of
`Option String` parameters.  The local file system of the path variants
is a partial map from paths to byte contents. -/

/-- Python `x or y` on two optional strings (client.py lines 163-164):
the left operand wins unless it is `None` or the empty string. -/
def pyOptOr (a b : Option String) : Option String :=
  match a with
  | some s => if s = "" then b else some s
  | none => b

/-- Python truthiness of an optional string: `None` and `""` are falsy. -/
def truthy : Option String → Bool
  | some s => s != ""
  | none => false

/-- The message of the `VectorizeIrisError` raised when credentials are
missing (client.py lines 166-170). -/
def missingCredsMsg : String :=
  "Missing credentials. Set VECTORIZE_API_TOKEN and VECTORIZE_ORG_ID environment variables or pass them as parameters."

/-- `pathlib.Path(p).name`: the final path component. -/
def pathName (p : String) : String :=
  ((p.splitOn "/").filter (fun s => s != "")).getLastD ""

/-- `extract_text` (client.py lines 128-174). -/
def extract_text (file_bytes : List Nat) (file_name : String)
    (api_token org_id : Option String) (poll_interval timeout : Int)
    (options : Option ExtractionOptions)
    (env_token env_org : Option String) (env : DriverEnv) : List Event × Outcome :=
  let api_token := pyOptOr api_token env_token
  let org_id := pyOptOr org_id env_org
  if !truthy api_token || !truthy org_id then
    ([], .err (.vectorizeIrisError missingCredsMsg))
  else
    extractFromBytes file_bytes file_name (api_token.getD "") (org_id.getD "")
      poll_interval timeout options env

/-- `extract_text_from_file` (client.py lines 177-253). -/
def extract_text_from_file (file_path : String)
    (api_token org_id : Option String) (poll_interval timeout : Int)
    (options : Option ExtractionOptions)
    (env_token env_org : Option String) (fs : String → Option (List Nat))
    (env : DriverEnv) : List Event × Outcome :=
  let api_token := pyOptOr api_token env_token
  let org_id := pyOptOr org_id env_org
  if !truthy api_token || !truthy org_id then
    ([], .err (.vectorizeIrisError missingCredsMsg))
  else
    match fs file_path with
    | none => ([], .err (.fileNotFoundError ("File not found: " ++ file_path)))
    | some file_content =>
      let file_name := pathName file_path
      let tail := extractFromBytes file_content file_name (api_token.getD "")
        (org_id.getD "") poll_interval timeout options env
      (Event.readFile file_path :: tail.1, tail.2)

/-- `extract_text_async` (async_client.py lines 133-172). -/
def extract_text_async (file_bytes : List Nat) (file_name : String)
    (api_token org_id : Option String) (poll_interval timeout : Int)
    (options : Option ExtractionOptions)
    (env_token env_org : Option String) (env : DriverEnv) : List Event × Outcome :=
  let api_token := pyOptOr api_token env_token
  let org_id := pyOptOr org_id env_org
  if !truthy api_token || !truthy org_id then
    ([], .err (.vectorizeIrisError missingCredsMsg))
  else
    extractFromBytesAsync file_bytes file_name (api_token.getD "") (org_id.getD "")
      poll_interval timeout options env

/-- `extract_text_from_file_async` (async_client.py lines 175-223). -/
def extract_text_from_file_async (file_path : String)
    (api_token org_id : Option String) (poll_interval timeout : Int)
    (options : Option ExtractionOptions)
    (env_token env_org : Option String) (fs : String → Option (List Nat))
    (env : DriverEnv) : List Event × Outcome :=
  let api_token := pyOptOr api_token env_token
  let org_id := pyOptOr org_id env_org
  if !truthy api_token || !truthy org_id then
    ([], .err (.vectorizeIrisError missingCredsMsg))
  else
    match fs file_path with
    | none => ([], .err (.fileNotFoundError ("File not found: " ++ file_path)))
    | some file_content =>
      let file_name := pathName file_path
      let tail := extractFromBytesAsync file_content file_name (api_token.getD "")
        (org_id.getD "") poll_interval timeout options env
      (Event.readFile file_path :: tail.1, tail.2)


/-! ## Shared helper lemmas -/

/-- The two poll loops are the same function of the environment. -/
theorem pollLoop_eq_pollLoopAsync (b : String) (hs : List (String × String))
    (e : String) (pi tmo : Int) (st : ℚ)
    (l : List (ℚ × HttpResp ExtractionResult)) :
    pollLoop b hs e pi tmo st l = pollLoopAsync b hs e pi tmo st l := by
  induction l with
  | nil => rfl
  | cons hd tl ih =>
    obtain ⟨now, r⟩ := hd
    simp only [pollLoop, pollLoopAsync, ih]

/-- At any poll iteration whose clock reading exceeds the deadline, the
loop stops with the timeout error, emitting nothing. -/
theorem pollLoop_timeout (b : String) (hs : List (String × String)) (e : String)
    (pi tmo : Int) (st now : ℚ) (r : HttpResp ExtractionResult)
    (rest : List (ℚ × HttpResp ExtractionResult))
    (h : now - st > (tmo : ℚ)) :
    pollLoop b hs e pi tmo st ((now, r) :: rest)
      = ([], .err (.vectorizeIrisError
          ("Extraction timed out after " ++ toString tmo ++ " seconds"))) := by
  simp only [pollLoop, if_pos h]

/-- When the credential pair does not resolve to two truthy strings, the
guard at the top of every entry point is taken. -/
theorem credGuardTaken (a b : Option String)
    (h : ¬(truthy a = true ∧ truthy b = true)) :
    (!truthy a || !truthy b) = true := by
  cases ha : truthy a <;> cases hb : truthy b <;> simp_all

/-! ## Claims -/

/-- C6: the blocking driver (`_extract_from_bytes`) and the suspendable
driver (`_extract_from_bytes_async`) are functionally identical: on the
same inputs and the same sequence of HTTP responses they emit the same
event trace (same methods, URLs, headers, bodies, sleeps) and end in the
same outcome. -/
theorem sync_async_drivers_equivalent (file_content : List Nat)
    (file_name api_token org_id : String) (poll_interval timeout : Int)
    (options : Option ExtractionOptions) (env : DriverEnv) :
    extractFromBytes file_content file_name api_token org_id
        poll_interval timeout options env
      = extractFromBytesAsync file_content file_name api_token org_id
          poll_interval timeout options env := by
  unfold extractFromBytes extractFromBytesAsync
  simp only [pollLoop_eq_pollLoopAsync]

/-- C1: the poll loop checks the wall-clock deadline before each status
request.  First conjunct: at any iteration whose clock reading exceeds
the recorded start plus the timeout, the run fails with the timeout
error carrying the timeout value and emits no further event (so no
further status request).  Second conjunct: at the driver level, a
timeout already exceeded before the very first status check is still
reported, and the whole trace contains no status (`GET`) request. -/
theorem timeout_checked_before_each_status_request :
    (∀ (base : String) (hdrs : List (String × String)) (eid : String)
       (pi tmo : Int) (start now : ℚ) (r : HttpResp ExtractionResult)
       (rest : List (ℚ × HttpResp ExtractionResult)),
       now - start > (tmo : ℚ) →
       pollLoop base hdrs eid pi tmo start ((now, r) :: rest)
         = ([], .err (.vectorizeIrisError
             ("Extraction timed out after " ++ toString tmo ++ " seconds"))))
    ∧
    (∀ (fc : List Nat) (fn tok org : String) (pi tmo : Int)
       (opts : Option ExtractionOptions) (env : DriverEnv)
       (now : ℚ) (r : HttpResp ExtractionResult)
       (rest : List (ℚ × HttpResp ExtractionResult)),
       env.uploadResp.status = 200 →
       env.putResp.status ∈ [200, 201, 204] →
       env.extractionResp.status = 200 →
       env.polls = (now, r) :: rest →
       now - env.startTime > (tmo : ℚ) →
       (extractFromBytes fc fn tok org pi tmo opts env).2
           = .err (.vectorizeIrisError
               ("Extraction timed out after " ++ toString tmo ++ " seconds"))
         ∧ ∀ e ∈ (extractFromBytes fc fn tok org pi tmo opts env).1,
             e.isGet = false) := by
  constructor
  · intro base hdrs eid pi tmo start now r rest h
    exact pollLoop_timeout base hdrs eid pi tmo start now r rest h
  · intro fc fn tok org pi tmo opts env now r rest h1 h2 h3 h4 h5
    have hput : ¬ env.putResp.status ∉ [200, 201, 204] := not_not_intro h2
    unfold extractFromBytes
    rw [h4]
    simp only [h1, h3, ne_eq, not_true_eq_false, if_false, if_neg hput,
      pollLoop_timeout _ _ _ _ _ _ _ _ _ h5]
    refine ⟨trivial, ?_⟩
    intro e he
    simp only [List.mem_cons, List.not_mem_nil, or_false] at he
    rcases he with h | h | h <;> subst h <;> rfl

/-- C2: for the status sequence `[not-ready, ready+success+text "X"]`,
a run that does not hit the timeout issues exactly two status requests,
sleeps the configured poll interval exactly once between them, and
returns the payload, whose text is `"X"`: the trace decomposes into a
status-request-free and sleep-free part followed by
`[GET, sleep poll_interval, GET]`, and the status-request and sleep
counts over the whole trace are 2 and 1. -/
theorem poll_sequence_two_status_calls
    (fc : List Nat) (fn tok org : String) (pi tmo : Int)
    (opts : Option ExtractionOptions) (env : DriverEnv)
    (t1 t2 : ℚ) (txt1 txt2 : String) (d : ExtractionResultData)
    (hup : env.uploadResp.status = 200)
    (hput : env.putResp.status ∈ [200, 201, 204])
    (hext : env.extractionResp.status = 200)
    (hpolls : env.polls = [(t1, ⟨200, txt1, ⟨false, none⟩⟩),
                          (t2, ⟨200, txt2, ⟨true, some d⟩⟩)])
    (ht1 : ¬ t1 - env.startTime > (tmo : ℚ))
    (ht2 : ¬ t2 - env.startTime > (tmo : ℚ))
    (hsucc : d.success = true)
    (htext : d.text = some "X") :
    ∃ pre,
      extractFromBytes fc fn tok org pi tmo opts env
        = (pre ++ [Event.getReq ("https://api.vectorize.io/v1/org/" ++ org
              ++ "/extraction/" ++ env.extractionResp.payload.extraction_id)
              (jsonHeaders tok),
            Event.sleepFor pi,
            Event.getReq ("https://api.vectorize.io/v1/org/" ++ org
              ++ "/extraction/" ++ env.extractionResp.payload.extraction_id)
              (jsonHeaders tok)],
           .ok d)
      ∧ (∀ e ∈ pre, e.isGet = false ∧ e.isSleep = false)
      ∧ (extractFromBytes fc fn tok org pi tmo opts env).1.countP
          (fun e => e.isGet) = 2
      ∧ (extractFromBytes fc fn tok org pi tmo opts env).1.countP
          (fun e => e.isSleep) = 1
      ∧ d.text = some "X" := by
  have hput' : ¬ env.putResp.status ∉ [200, 201, 204] := not_not_intro hput
  have hdriver : extractFromBytes fc fn tok org pi tmo opts env
      = ([Event.postReq ("https://api.vectorize.io/v1/org/" ++ org ++ "/files")
            (jsonHeaders tok)
            (StartFileUploadRequest.model_dump ⟨fn, "application/octet-stream"⟩),
          Event.putReq env.uploadResp.payload.upload_url
            [("Content-Type", "application/octet-stream"),
             ("Content-Length", toString fc.length)] fc,
          Event.postReq ("https://api.vectorize.io/v1/org/" ++ org ++ "/extraction")
            (jsonHeaders tok)
            (StartExtractionRequest.model_dump
              ((optsOrDefault opts).to_extraction_request
                env.uploadResp.payload.file_id))]
          ++ [Event.getReq ("https://api.vectorize.io/v1/org/" ++ org
                ++ "/extraction/" ++ env.extractionResp.payload.extraction_id)
                (jsonHeaders tok),
              Event.sleepFor pi,
              Event.getReq ("https://api.vectorize.io/v1/org/" ++ org
                ++ "/extraction/" ++ env.extractionResp.payload.extraction_id)
                (jsonHeaders tok)],
         .ok d) := by
    unfold extractFromBytes
    rw [hpolls]
    simp only [hup, hext, ne_eq, not_true_eq_false, if_false, if_neg hput',
      pollLoop, if_neg ht1, if_neg ht2, hsucc]
    simp
  refine ⟨_, hdriver, ?_, ?_, ?_, htext⟩
  · intro e he
    simp only [List.mem_cons, List.not_mem_nil, or_false] at he
    rcases he with h | h | h <;> subst h <;> exact ⟨rfl, rfl⟩
  · rw [hdriver]
    rfl
  · rw [hdriver]
    rfl

/-- C3: resolution of a terminal (`ready=true`) job status reached
within the deadline with a 200 response: an absent payload fails with
the no-data error; a payload with `success=false` fails with the
extraction-failed error carrying the payload's `error` field, or the
literal `"Unknown error"` when that field is `None` or empty; a payload
with `success=true` is returned to the caller unchanged. -/
theorem terminal_status_resolution (base : String)
    (hdrs : List (String × String)) (eid : String) (pi tmo : Int)
    (start now : ℚ) (r : HttpResp ExtractionResult)
    (rest : List (ℚ × HttpResp ExtractionResult))
    (htime : ¬ now - start > (tmo : ℚ))
    (hstatus : r.status = 200)
    (hready : r.payload.ready = true) :
    (r.payload.data = none →
       pollLoop base hdrs eid pi tmo start ((now, r) :: rest)
         = ([Event.getReq (base ++ "/extraction/" ++ eid) hdrs],
            .err (.vectorizeIrisError
              "Extraction completed but no data was returned")))
    ∧ (∀ d e, r.payload.data = some d → d.success = false →
        d.error = some e → e ≠ "" →
        pollLoop base hdrs eid pi tmo start ((now, r) :: rest)
          = ([Event.getReq (base ++ "/extraction/" ++ eid) hdrs],
             .err (.vectorizeIrisError ("Extraction failed: " ++ e))))
    ∧ (∀ d, r.payload.data = some d → d.success = false →
        (d.error = none ∨ d.error = some "") →
        pollLoop base hdrs eid pi tmo start ((now, r) :: rest)
          = ([Event.getReq (base ++ "/extraction/" ++ eid) hdrs],
             .err (.vectorizeIrisError "Extraction failed: Unknown error")))
    ∧ (∀ d, r.payload.data = some d → d.success = true →
        pollLoop base hdrs eid pi tmo start ((now, r) :: rest)
          = ([Event.getReq (base ++ "/extraction/" ++ eid) hdrs],
             .ok d)) := by
  refine ⟨?_, ?_, ?_, ?_⟩
  · intro hdata
    simp only [pollLoop, if_neg htime, hstatus, ne_eq, not_true_eq_false,
      if_false, hready, hdata, if_true]
  · intro d e hdata hfail herr hne
    simp only [pollLoop, if_neg htime, hstatus, ne_eq, not_true_eq_false,
      if_false, hready, hdata, if_true, hfail, pyStrOr, herr, if_neg hne]
  · intro d hdata hfail herr
    rcases herr with herr | herr <;>
      simp only [pollLoop, if_neg htime, hstatus, ne_eq, not_true_eq_false,
        if_false, hready, hdata, if_true, hfail, pyStrOr, herr, if_pos rfl] <;>
      rfl
  · intro d hdata hsucc
    simp only [pollLoop, if_neg htime, hstatus, ne_eq, not_true_eq_false,
      if_false, hready, hdata, if_true, hsucc]
    simp

/-- C4: credential resolution at every public entry point.  First
conjunct: a non-empty explicit argument takes precedence over the
configured value (`x or env` keeps `x`).  Second conjunct: whenever the
two resolved credentials are not both non-empty strings, all four entry
points fail with the `VectorizeIrisError` missing-credentials message
and an empty event trace, i.e. before any network request is issued. -/
theorem credentials_precedence_and_failfast :
    (∀ (a b : Option String) (s : String), a = some s → s ≠ "" →
       pyOptOr a b = a)
    ∧
    (∀ (fb : List Nat) (fn fp : String) (tok org etok eorg : Option String)
       (pi tmo : Int) (opts : Option ExtractionOptions)
       (fs : String → Option (List Nat)) (env : DriverEnv),
       ¬(truthy (pyOptOr tok etok) = true ∧ truthy (pyOptOr org eorg) = true) →
       extract_text fb fn tok org pi tmo opts etok eorg env
           = ([], .err (.vectorizeIrisError missingCredsMsg))
         ∧ extract_text_async fb fn tok org pi tmo opts etok eorg env
           = ([], .err (.vectorizeIrisError missingCredsMsg))
         ∧ extract_text_from_file fp tok org pi tmo opts etok eorg fs env
           = ([], .err (.vectorizeIrisError missingCredsMsg))
         ∧ extract_text_from_file_async fp tok org pi tmo opts etok eorg fs env
           = ([], .err (.vectorizeIrisError missingCredsMsg))) := by
  constructor
  · intro a b s ha hs
    subst ha
    simp only [pyOptOr, if_neg hs]
  · intro fb fn fp tok org etok eorg pi tmo opts fs env h
    have hg := credGuardTaken (pyOptOr tok etok) (pyOptOr org eorg) h
    refine ⟨?_, ?_, ?_, ?_⟩ <;>
      simp only [extract_text, extract_text_async, extract_text_from_file,
        extract_text_from_file_async, hg, if_true]

/-- C5: a non-200 upload-start response makes both drivers fail with the
upload-start error whose message is built from the numeric status code
and the response body text (so the message contains both), after a trace
consisting of the single upload-start `POST`: the byte-transfer `PUT` to
the presigned URL is never issued. -/
theorem upload_start_failure_stops_run
    (fc : List Nat) (fn tok org : String) (pi tmo : Int)
    (opts : Option ExtractionOptions) (env : DriverEnv)
    (h : env.uploadResp.status ≠ 200) :
    (extractFromBytes fc fn tok org pi tmo opts env
       = ([Event.postReq ("https://api.vectorize.io/v1/org/" ++ org ++ "/files")
             (jsonHeaders tok)
             (StartFileUploadRequest.model_dump ⟨fn, "application/octet-stream"⟩)],
          .err (.vectorizeIrisError
            ("Failed to start upload: " ++ toString env.uploadResp.status
              ++ " - " ++ env.uploadResp.text))))
    ∧ (extractFromBytesAsync fc fn tok org pi tmo opts env
       = ([Event.postReq ("https://api.vectorize.io/v1/org/" ++ org ++ "/files")
             (jsonHeaders tok)
             (StartFileUploadRequest.model_dump ⟨fn, "application/octet-stream"⟩)],
          .err (.vectorizeIrisError
            ("Failed to start upload: " ++ toString env.uploadResp.status
              ++ " - " ++ env.uploadResp.text))))
    ∧ (∃ p q, "Failed to start upload: " ++ toString env.uploadResp.status
          ++ " - " ++ env.uploadResp.text
        = p ++ toString env.uploadResp.status ++ q)
    ∧ (∃ p q, "Failed to start upload: " ++ toString env.uploadResp.status
          ++ " - " ++ env.uploadResp.text
        = p ++ env.uploadResp.text ++ q)
    ∧ (∀ e ∈ (extractFromBytes fc fn tok org pi tmo opts env).1,
        e.isPut = false)
    ∧ (∀ e ∈ (extractFromBytesAsync fc fn tok org pi tmo opts env).1,
        e.isPut = false) := by
  have hsync : extractFromBytes fc fn tok org pi tmo opts env
      = ([Event.postReq ("https://api.vectorize.io/v1/org/" ++ org ++ "/files")
            (jsonHeaders tok)
            (StartFileUploadRequest.model_dump ⟨fn, "application/octet-stream"⟩)],
         .err (.vectorizeIrisError
           ("Failed to start upload: " ++ toString env.uploadResp.status
             ++ " - " ++ env.uploadResp.text))) := by
    unfold extractFromBytes
    rw [if_pos h]
  have hasync : extractFromBytesAsync fc fn tok org pi tmo opts env
      = ([Event.postReq ("https://api.vectorize.io/v1/org/" ++ org ++ "/files")
            (jsonHeaders tok)
            (StartFileUploadRequest.model_dump ⟨fn, "application/octet-stream"⟩)],
         .err (.vectorizeIrisError
           ("Failed to start upload: " ++ toString env.uploadResp.status
             ++ " - " ++ env.uploadResp.text))) := by
    unfold extractFromBytesAsync
    rw [if_pos h]
  refine ⟨hsync, hasync, ?_, ?_, ?_, ?_⟩
  · exact ⟨"Failed to start upload: ", " - " ++ env.uploadResp.text, by
      simp [String.append_assoc]⟩
  · exact ⟨"Failed to start upload: " ++ toString env.uploadResp.status ++ " - ",
      "", by simp [String.append_assoc]⟩
  · rw [hsync]
    intro e he
    simp only [List.mem_singleton] at he
    subst he
    rfl
  · rw [hasync]
    intro e he
    simp only [List.mem_singleton] at he
    subst he
    rfl

/-- C7: passing a metadata-schema mapping as a raw `id`/`schema` dict and
passing the same mapping inside a structured
`MetadataExtractionStrategySchema` object yield the very same
`ExtractionOptions`, hence byte-for-byte identical serialized wire
extraction requests; and the request's schema field is exactly the JSON
serialization of that mapping (so a valid JSON string matching it). -/
theorem metadata_schema_dict_object_roundtrip
    (i fid : String) (m : List (String × Json)) (ty : Option String)
    (cs : Option Int) (imi : Option Bool) (pin : Option String) :
    mkExtractionOptions ty cs (some [SchemaInput.dict i (SchemaVal.dict m)]) imi pin
        = mkExtractionOptions ty cs
            (some [SchemaInput.model
              (mkMetadataExtractionStrategySchema i (SchemaVal.dict m))]) imi pin
    ∧ Json.dumps (StartExtractionRequest.model_dump
        ((mkExtractionOptions ty cs
            (some [SchemaInput.dict i (SchemaVal.dict m)]) imi pin).to_extraction_request fid))
      = Json.dumps (StartExtractionRequest.model_dump
        ((mkExtractionOptions ty cs
            (some [SchemaInput.model
              (mkMetadataExtractionStrategySchema i (SchemaVal.dict m))]) imi pin).to_extraction_request fid))
    ∧ ((mkExtractionOptions ty cs
          (some [SchemaInput.dict i (SchemaVal.dict m)]) imi pin).to_extraction_request fid).metadata
      = some ⟨some [⟨i, Json.dumps (Json.obj m)⟩], imi⟩ := by
  refine ⟨rfl, rfl, ?_⟩
  simp only [mkExtractionOptions, convert_metadata_schemas, List.map_cons,
    List.map_nil, mkMetadataExtractionStrategySchema, convert_schema_to_string,
    ExtractionOptions.to_extraction_request, ne_eq, reduceCtorEq,
    not_false_eq_true, true_or, if_true]

/-- C8: when the caller passes no options (so the driver substitutes
`ExtractionOptions()`), the wire extraction request is exactly
`{fileId, type: "iris", metadata: {inferSchema: true}}` — it carries no
`chunkSize` key, and `infer_metadata_schema` defaults to `true` and is
sent; and for every `ExtractionOptions` whose `chunk_size` is unset, the
dumped wire request has no `chunkSize` key. -/
theorem chunk_size_unset_not_sent (fid : String) (o : ExtractionOptions)
    (h : o.chunk_size = none) :
    StartExtractionRequest.model_dump
        ((optsOrDefault none).to_extraction_request fid)
      = Json.obj [("fileId", .str fid), ("type", .str "iris"),
                  ("metadata", .obj [("inferSchema", .bool true)])]
    ∧ ExtractionOptions.default.chunk_size = none
    ∧ ExtractionOptions.default.infer_metadata_schema = some true
    ∧ "chunkSize" ∉ Json.objKeys (StartExtractionRequest.model_dump
        (o.to_extraction_request fid)) := by
  refine ⟨rfl, rfl, rfl, ?_⟩
  obtain ⟨ty, cs, ms, imi, pin⟩ := o
  simp only at h
  subst h
  cases ty <;> cases ms <;> cases imi <;> cases pin <;>
    simp [ExtractionOptions.to_extraction_request,
      StartExtractionRequest.model_dump, Json.objKeys, optField,
      MetadataExtractionStrategy.dump]

/-- C9: calling the path entry points with valid credentials on a path
that names no file fails with `FileNotFoundError` whose message names
the path, with an empty event trace: no file content is read and no
network request is issued. -/
theorem path_not_found_fails_before_io
    (path tokS orgS : String) (pi tmo : Int)
    (opts : Option ExtractionOptions) (etok eorg : Option String)
    (fs : String → Option (List Nat)) (env : DriverEnv)
    (htok : tokS ≠ "") (horg : orgS ≠ "") (hfs : fs path = none) :
    extract_text_from_file path (some tokS) (some orgS) pi tmo opts
        etok eorg fs env
      = ([], .err (.fileNotFoundError ("File not found: " ++ path)))
    ∧ extract_text_from_file_async path (some tokS) (some orgS) pi tmo opts
        etok eorg fs env
      = ([], .err (.fileNotFoundError ("File not found: " ++ path)))
    ∧ (∃ p q, "File not found: " ++ path = p ++ path ++ q) := by
  have htok' : truthy (pyOptOr (some tokS) etok) = true := by
    simp [pyOptOr, truthy, htok]
  have horg' : truthy (pyOptOr (some orgS) eorg) = true := by
    simp [pyOptOr, truthy, horg]
  refine ⟨?_, ?_, ⟨"File not found: ", "", by simp⟩⟩ <;>
    simp only [extract_text_from_file, extract_text_from_file_async,
      htok', horg', Bool.not_true, Bool.or_self, Bool.false_or, if_false,
      hfs] <;>
    rfl

/-- C10: in the path entry points the credential check precedes the
file-existence check: with no resolvable credentials and a non-existent
path, the call fails with the missing-credentials `VectorizeIrisError`,
not with `FileNotFoundError`. -/
theorem credentials_checked_before_file_existence
    (path : String) (tok org etok eorg : Option String) (pi tmo : Int)
    (opts : Option ExtractionOptions) (fs : String → Option (List Nat))
    (env : DriverEnv)
    (hcred : ¬(truthy (pyOptOr tok etok) = true ∧ truthy (pyOptOr org eorg) = true))
    (hfs : fs path = none) :
    extract_text_from_file path tok org pi tmo opts etok eorg fs env
      = ([], .err (.vectorizeIrisError missingCredsMsg))
    ∧ extract_text_from_file_async path tok org pi tmo opts etok eorg fs env
      = ([], .err (.vectorizeIrisError missingCredsMsg)) := by
  have hg := credGuardTaken (pyOptOr tok etok) (pyOptOr org eorg) hcred
  constructor <;>
    simp only [extract_text_from_file, extract_text_from_file_async, hg,
      if_true]

/-! ## Concrete witnesses -/

/-- Witness for C1: timeout 300 already exceeded at clock reading 301
before the very first status check, at the loop and driver levels. -/
theorem timeout_checked_before_each_status_request_witness :
    pollLoop "b" [] "eid" 2 300 0 [((301 : ℚ), ⟨200, "", ⟨false, none⟩⟩)]
        = ([], .err (.vectorizeIrisError
            ("Extraction timed out after " ++ toString (300 : Int) ++ " seconds")))
      ∧ ((extractFromBytes [1] "f" "t" "o" 2 300 none
            ⟨⟨200, "", ⟨"fid", "u"⟩⟩, ⟨204, "", ()⟩, ⟨200, "", ⟨"m", "eid"⟩⟩, 0,
             [((301 : ℚ), ⟨200, "", ⟨false, none⟩⟩)]⟩).2
          = .err (.vectorizeIrisError
              ("Extraction timed out after " ++ toString (300 : Int) ++ " seconds"))
        ∧ ∀ e ∈ (extractFromBytes [1] "f" "t" "o" 2 300 none
            ⟨⟨200, "", ⟨"fid", "u"⟩⟩, ⟨204, "", ()⟩, ⟨200, "", ⟨"m", "eid"⟩⟩, 0,
             [((301 : ℚ), ⟨200, "", ⟨false, none⟩⟩)]⟩).1, e.isGet = false) :=
  ⟨timeout_checked_before_each_status_request.1 "b" [] "eid" 2 300 0 301
      ⟨200, "", ⟨false, none⟩⟩ [] (by norm_num),
   timeout_checked_before_each_status_request.2 [1] "f" "t" "o" 2 300 none
      ⟨⟨200, "", ⟨"fid", "u"⟩⟩, ⟨204, "", ()⟩, ⟨200, "", ⟨"m", "eid"⟩⟩, 0,
       [((301 : ℚ), ⟨200, "", ⟨false, none⟩⟩)]⟩
      301 ⟨200, "", ⟨false, none⟩⟩ [] rfl (by decide) rfl rfl (by norm_num)⟩

/-- Witness for C2: the two-snapshot status sequence with text `"X"`,
poll interval 2 and timeout 300, at clock readings 1 and 3. -/
theorem poll_sequence_two_status_calls_witness :
    ∃ pre,
      extractFromBytes [1] "f" "t" "o" 2 300 none
          ⟨⟨200, "", ⟨"fid", "u"⟩⟩, ⟨204, "", ()⟩, ⟨200, "", ⟨"m", "eid"⟩⟩, 0,
           [((1 : ℚ), ⟨200, "", ⟨false, none⟩⟩),
            ((3 : ℚ), ⟨200, "", ⟨true,
              some ⟨true, none, some "X", none, none, none, none, none, none⟩⟩⟩)]⟩
        = (pre ++ [Event.getReq ("https://api.vectorize.io/v1/org/" ++ "o"
              ++ "/extraction/" ++ "eid") (jsonHeaders "t"),
            Event.sleepFor 2,
            Event.getReq ("https://api.vectorize.io/v1/org/" ++ "o"
              ++ "/extraction/" ++ "eid") (jsonHeaders "t")],
           .ok ⟨true, none, some "X", none, none, none, none, none, none⟩)
      ∧ (∀ e ∈ pre, e.isGet = false ∧ e.isSleep = false)
      ∧ (extractFromBytes [1] "f" "t" "o" 2 300 none
          ⟨⟨200, "", ⟨"fid", "u"⟩⟩, ⟨204, "", ()⟩, ⟨200, "", ⟨"m", "eid"⟩⟩, 0,
           [((1 : ℚ), ⟨200, "", ⟨false, none⟩⟩),
            ((3 : ℚ), ⟨200, "", ⟨true,
              some ⟨true, none, some "X", none, none, none, none, none, none⟩⟩⟩)]⟩).1.countP
          (fun e => e.isGet) = 2
      ∧ (extractFromBytes [1] "f" "t" "o" 2 300 none
          ⟨⟨200, "", ⟨"fid", "u"⟩⟩, ⟨204, "", ()⟩, ⟨200, "", ⟨"m", "eid"⟩⟩, 0,
           [((1 : ℚ), ⟨200, "", ⟨false, none⟩⟩),
            ((3 : ℚ), ⟨200, "", ⟨true,
              some ⟨true, none, some "X", none, none, none, none, none, none⟩⟩⟩)]⟩).1.countP
          (fun e => e.isSleep) = 1
      ∧ (⟨true, none, some "X", none, none, none, none, none, none⟩ :
          ExtractionResultData).text = some "X" :=
  poll_sequence_two_status_calls [1] "f" "t" "o" 2 300 none
    ⟨⟨200, "", ⟨"fid", "u"⟩⟩, ⟨204, "", ()⟩, ⟨200, "", ⟨"m", "eid"⟩⟩, 0,
     [((1 : ℚ), ⟨200, "", ⟨false, none⟩⟩),
      ((3 : ℚ), ⟨200, "", ⟨true,
        some ⟨true, none, some "X", none, none, none, none, none, none⟩⟩⟩)]⟩
    1 3 "" "" ⟨true, none, some "X", none, none, none, none, none, none⟩
    rfl (by decide) rfl rfl (by norm_num) (by norm_num) rfl rfl

/-- Witness for C3: a ready status with a 200 response within the
deadline whose payload is absent resolves to the no-data error. -/
theorem terminal_status_resolution_witness :
    pollLoop "b" [] "eid" 2 300 0 [((1 : ℚ), ⟨200, "", ⟨true, none⟩⟩)]
      = ([Event.getReq ("b" ++ "/extraction/" ++ "eid") []],
         .err (.vectorizeIrisError
           "Extraction completed but no data was returned")) :=
  (terminal_status_resolution "b" [] "eid" 2 300 0 1 ⟨200, "", ⟨true, none⟩⟩ []
    (by norm_num) rfl rfl).1 rfl

/-- Witness for C4: an explicit non-empty token wins over a configured
value, and with no organization id from either source all four entry
points fail with the missing-credentials error and an empty trace. -/
theorem credentials_precedence_and_failfast_witness :
    pyOptOr (some "tok") (some "envtok") = some "tok"
    ∧ extract_text [1] "f" (some "tok") none 2 300 none (some "envtok") none
        ⟨⟨200, "", ⟨"fid", "u"⟩⟩, ⟨204, "", ()⟩, ⟨200, "", ⟨"m", "eid"⟩⟩, 0, []⟩
      = ([], .err (.vectorizeIrisError missingCredsMsg))
    ∧ extract_text_from_file "p" (some "tok") none 2 300 none (some "envtok") none
        (fun _ => none)
        ⟨⟨200, "", ⟨"fid", "u"⟩⟩, ⟨204, "", ()⟩, ⟨200, "", ⟨"m", "eid"⟩⟩, 0, []⟩
      = ([], .err (.vectorizeIrisError missingCredsMsg)) :=
  ⟨credentials_precedence_and_failfast.1 (some "tok") (some "envtok") "tok"
      rfl (by decide),
   (credentials_precedence_and_failfast.2 [1] "f" "p" (some "tok") none
      (some "envtok") none 2 300 none (fun _ => none)
      ⟨⟨200, "", ⟨"fid", "u"⟩⟩, ⟨204, "", ()⟩, ⟨200, "", ⟨"m", "eid"⟩⟩, 0, []⟩
      (by decide)).1,
   (credentials_precedence_and_failfast.2 [1] "f" "p" (some "tok") none
      (some "envtok") none 2 300 none (fun _ => none)
      ⟨⟨200, "", ⟨"fid", "u"⟩⟩, ⟨204, "", ()⟩, ⟨200, "", ⟨"m", "eid"⟩⟩, 0, []⟩
      (by decide)).2.2.1⟩

/-- Witness for C5: a 400 upload-start response with body `"bad"`. -/
theorem upload_start_failure_stops_run_witness :
    extractFromBytes [1] "f" "t" "o" 2 300 none
        ⟨⟨400, "bad", ⟨"fid", "u"⟩⟩, ⟨204, "", ()⟩, ⟨200, "", ⟨"m", "eid"⟩⟩, 0, []⟩
      = ([Event.postReq ("https://api.vectorize.io/v1/org/" ++ "o" ++ "/files")
            (jsonHeaders "t")
            (StartFileUploadRequest.model_dump ⟨"f", "application/octet-stream"⟩)],
         .err (.vectorizeIrisError
           ("Failed to start upload: " ++ toString (400 : Nat) ++ " - " ++ "bad"))) :=
  (upload_start_failure_stops_run [1] "f" "t" "o" 2 300 none
    ⟨⟨400, "bad", ⟨"fid", "u"⟩⟩, ⟨204, "", ()⟩, ⟨200, "", ⟨"m", "eid"⟩⟩, 0, []⟩
    (by decide)).1

/-- Witness for C8: the default options produce a wire request with no
`chunkSize` key. -/
theorem chunk_size_unset_not_sent_witness :
    StartExtractionRequest.model_dump
        ((optsOrDefault none).to_extraction_request "fid")
      = Json.obj [("fileId", .str "fid"), ("type", .str "iris"),
                  ("metadata", .obj [("inferSchema", .bool true)])]
    ∧ "chunkSize" ∉ Json.objKeys (StartExtractionRequest.model_dump
        (ExtractionOptions.default.to_extraction_request "fid")) :=
  ⟨(chunk_size_unset_not_sent "fid" ExtractionOptions.default rfl).1,
   (chunk_size_unset_not_sent "fid" ExtractionOptions.default rfl).2.2.2⟩

/-- Witness for C9: a missing path `"/no/such.pdf"` with valid explicit
credentials fails with `FileNotFoundError` naming the path and an empty
trace. -/
theorem path_not_found_fails_before_io_witness :
    extract_text_from_file "/no/such.pdf" (some "t") (some "o") 2 300 none
        none none (fun _ => none)
        ⟨⟨200, "", ⟨"fid", "u"⟩⟩, ⟨204, "", ()⟩, ⟨200, "", ⟨"m", "eid"⟩⟩, 0, []⟩
      = ([], .err (.fileNotFoundError ("File not found: " ++ "/no/such.pdf"))) :=
  (path_not_found_fails_before_io "/no/such.pdf" "t" "o" 2 300 none none none
    (fun _ => none)
    ⟨⟨200, "", ⟨"fid", "u"⟩⟩, ⟨204, "", ()⟩, ⟨200, "", ⟨"m", "eid"⟩⟩, 0, []⟩
    (by decide) (by decide) rfl).1

/-- Witness for C10: no credentials from any source and a missing path
yield the missing-credentials error, not `FileNotFoundError`. -/
theorem credentials_checked_before_file_existence_witness :
    extract_text_from_file "/no/such.pdf" none none 2 300 none none none
        (fun _ => none)
        ⟨⟨200, "", ⟨"fid", "u"⟩⟩, ⟨204, "", ()⟩, ⟨200, "", ⟨"m", "eid"⟩⟩, 0, []⟩
      = ([], .err (.vectorizeIrisError missingCredsMsg)) :=
  (credentials_checked_before_file_existence "/no/such.pdf" none none none none
    2 300 none (fun _ => none)
    ⟨⟨200, "", ⟨"fid", "u"⟩⟩, ⟨204, "", ()⟩, ⟨200, "", ⟨"m", "eid"⟩⟩, 0, []⟩
    (by decide) rfl).1
